import Mathlib

/-!
Verification of the go-pivnet `download` package's `Client.Get` — the
range-partitioned, retrying file downloader — against its natural-language
specification. The repository sources at hand contain the package's ginkgo
test suite but not `downloader.go` itself, so the downloader is modelled
here from the specification's orchestrator state machine (§4.3) and
transfer-executor retry classification (§4.4); the concrete error-message
strings are the ones the test suite pins (`failed to make HEAD request: ...`,
`failed during retryable request: ...`, `failed to write file during
io.Copy: ...`, `maximum retries reached`, `could not convert download
retries to number`, `failed to construct range: ...`). The injected
collaborators — transport, link resolver, range planner, progress bar — are
modelled exactly as the tests script their fakes: the transport is a list of
scripted results consumed by call count, the planner and resolver are
injected results, and the progress bar is an event log.
-/

namespace Download

/-- Modelled from the spec: an error crossing the transport or copy boundary,
recorded as the properties the spec's retry classifier inspects — the
unexpected-EOF sentinel, a connection-reset-by-peer condition anywhere in the
cause chain, and the self-reported temporary / timed-out flags — together with
the message text used when the error is wrapped. The flags abstract over the
error's concrete type and over how the transport wraps it, as §4.4 requires. -/
structure Err where
  msg : String
  isUnexpectedEOF : Bool
  isConnReset : Bool
  temporary : Bool
  timeout : Bool
deriving DecidableEq, Repr

/-- Modelled from the spec (§4.4): retryable classification. An error is
retryable exactly when it (or its cause chain) is the unexpected-EOF sentinel,
a reset-by-peer condition, or self-reports as temporary or timed-out. -/
def retryable (e : Err) : Bool :=
  e.isUnexpectedEOF || e.isConnReset || e.temporary || e.timeout

/-- One byte range of the transfer plan, as the test suite's `download.Range`:
inclusive bounds plus the value of the `Range` header carried on the segment
request (the tests set e.g. `bytes=0-9`; ranges built without a header carry
the empty string, matching the Go zero value). -/
structure Range where
  lower : Nat
  upper : Nat
  httpHeader : String
deriving DecidableEq, Repr

/-- An HTTP response as the model observes it: status code, content length and
fully-resolved request URL (read off the probe response, as the tests script
`resp.Request.URL`), and the body as the byte prefix streamed successfully
followed by an optional mid-stream fault — the shape of the tests' readers
(`MultiReader(strings.NewReader("some"), EOFReader)` streams `some` then
faults). -/
structure Response where
  statusCode : Nat
  contentLength : Int
  requestURL : String
  body : List Char × Option Err
deriving DecidableEq, Repr

/-- The externally observable actions of a `Get` run, in order: HTTP requests
issued (method, URL, `Range` header value) and the progress-bar calls
`SetTotal`, `Kickoff`, `Add`, `Finish`. Streaming progress flows through the
bar's proxy reader, which the tests stub to the identity, so only the explicit
`Add` corrections appear as `add` events. -/
inductive Event where
  | req (method url rangeHeader : String)
  | setTotal (n : Int)
  | kickoff
  | add (delta : Int)
  | finish
deriving DecidableEq, Repr

/-- State threaded through a `Get` run: the transport call count, the
observable event log, and the output file's content. -/
structure St where
  calls : Nat
  events : List Event
  file : List Char
deriving DecidableEq, Repr

/-- Overlay `d` on the front of `f`, keeping the part of `f` that `d` does not
reach: the effect of a positional write at offset zero. -/
def overlay : List Char → List Char → List Char
  | f, [] => f
  | [], d => d
  | _ :: f, c :: d => c :: overlay f d

/-- Write `d` into `f` starting at byte offset `off` (a positional write after
a seek to `off`), zero-padding if `f` is shorter than the offset. -/
def writeAt : List Char → Nat → List Char → List Char
  | f, 0, d => overlay f d
  | [], Nat.succ n, d => Char.ofNat 0 :: writeAt [] n d
  | c :: f, Nat.succ n, d => c :: writeAt f n d

/-- Whether `sub` begins the list `s`. -/
def startsWithL : List Char → List Char → Bool
  | [], _ => true
  | _ :: _, [] => false
  | a :: as, b :: bs => a == b && startsWithL as bs

/-- Whether `sub` occurs contiguously anywhere in `s`. -/
def hasSubL (sub : List Char) : List Char → Bool
  | [] => startsWithL sub []
  | c :: tail => startsWithL sub (c :: tail) || hasSubL sub tail

/-- Whether the string `sub` occurs as a contiguous substring of `s`
(the model's counterpart of gomega's `ContainSubstring`). -/
def containsStr (s sub : String) : Bool :=
  hasSubL sub.toList s.toList

/-- Modelled from the spec: the injected transport capability, scripted the way
the test suite scripts its fake `HTTPClient.DoStub` — the n-th `Do` call
returns the n-th entry of the script. -/
abbrev Transport := List (Except Err Response)

/-- Error returned when a run consumes more transport calls than the script
provides (the tests never reach this). -/
def noScript : Err := ⟨"no scripted response", false, false, false, false⟩

/-- Issue one transport call: log the request as an event and consume the next
scripted result. -/
def doCall (t : Transport) (st : St) (method url rangeHeader : String) :
    Except Err Response × St :=
  (t.getD st.calls (Except.error noScript),
   { st with
       calls := st.calls + 1,
       events := st.events ++ [Event.req method url rangeHeader] })

/-- Modelled from the spec (§4.4): the Transfer Executor for one byte range.
Construct the segment request with its `Range` selector and execute it.
A transport-call error or a mid-copy fault is classified by `retryable`:
on a retryable fault with budget left, roll back the progress bar by the bytes
already streamed for the attempt, decrement the budget and re-issue the
request from `lower` (a positional write, so the restart overwrites the
discarded attempt); with the budget exhausted, fail with the
`maximum retries reached` classification. A non-retryable transport error is
`download request failed`, a response status other than partial content is
`during GET unexpected status code was returned`, and a non-retryable
mid-copy fault is `failed to write file during io.Copy` — the message texts
the test suite pins. The streamed prefix of every attempt is written at
`lower` before the fault is handled. -/
def transferSegment (t : Transport) (url : String) (r : Range) :
    Nat → St → St × Option String
  | budget, st =>
    match doCall t st "GET" url r.httpHeader with
    | (Except.error e, st) =>
      if retryable e then
        match budget with
        | 0 => (st, some ("maximum retries reached: " ++ e.msg))
        | Nat.succ b => transferSegment t url r b st
      else (st, some ("download request failed: " ++ e.msg))
    | (Except.ok resp, st) =>
      if resp.statusCode = 206 then
        let written := resp.body.1
        let st := { st with file := writeAt st.file r.lower written }
        match resp.body.2 with
        | none => (st, none)
        | some e =>
          if retryable e then
            match budget with
            | 0 => (st, some ("maximum retries reached: " ++ e.msg))
            | Nat.succ b =>
              let st := { st with
                events := st.events ++ [Event.add (-(written.length : Int))] }
              transferSegment t url r b st
          else (st, some ("failed to write file during io.Copy: " ++ e.msg))
      else
        (st, some ("during GET unexpected status code was returned: " ++
          toString resp.statusCode))

/-- Modelled from the spec (§4.3 step 6): run the Transfer Executor for each
planned range in order; any fatal segment outcome aborts the whole operation,
wrapped with the `failed during retryable request` classification. Each
segment's attempt chain gets the full configured budget. -/
def transferAll (t : Transport) (url : String) (budget : Nat) :
    List Range → St → St × Option String
  | [], st => (st, none)
  | r :: rs, st =>
    match transferSegment t url r budget st with
    | (st, some msg) => (st, some ("failed during retryable request: " ++ msg))
    | (st, none) => transferAll t url budget rs st

/-- The downloader's configuration, as the test suite's `download.Client`:
the retry budget in its external string representation, the Go zero value
(the empty string) meaning the option is absent. -/
structure Client where
  retries : String
deriving DecidableEq, Repr

/-- Modelled from the spec (§4.3 step 1): the documented default retry budget
used when the option is absent. The spec fixes only that a default exists and
that the retried scenarios succeed within it, so any positive value is
faithful; the model uses 5. -/
def defaultRetryBudget : Nat := 5

/-- The numeric value of a decimal digit character, none otherwise. -/
def digitToNat (c : Char) : Option Nat :=
  if c = '0' then some 0 else if c = '1' then some 1
  else if c = '2' then some 2 else if c = '3' then some 3
  else if c = '4' then some 4 else if c = '5' then some 5
  else if c = '6' then some 6 else if c = '7' then some 7
  else if c = '8' then some 8 else if c = '9' then some 9
  else none

/-- Fold decimal digits into an accumulator, failing on any non-digit. -/
def parseNatChars (acc : Nat) : List Char → Option Nat
  | [] => some acc
  | c :: cs =>
    match digitToNat c with
    | some d => parseNatChars (acc * 10 + d) cs
    | none => none

/-- Parse a non-empty all-decimal string as a non-negative integer, the way
Go's `strconv.Atoi` accepts a plain non-negative number. -/
def strToNat (s : String) : Option Nat :=
  match s.toList with
  | [] => none
  | c :: cs => parseNatChars 0 (c :: cs)

/-- Modelled from the spec (§4.3 step 1): parse the configured retry budget
from its external string representation; absence (the empty string) implies
the default budget; anything that is not a valid non-negative integer is the
`could not convert download retries to number` configuration error. -/
def parseRetries (s : String) : Except String Nat :=
  if s = "" then Except.ok defaultRetryBudget
  else
    match strToNat s with
    | some n => Except.ok n
    | none => Except.error ("could not convert download retries to number: " ++ s)

/-- Modelled from the spec: whether the probe request can be constructed from
the resolved link — URL parsing is abstracted to a well-formedness check that
accepts the http and https URLs the tests use and rejects the malformed link
`%%%` the construction-failure test injects. -/
def validURL (s : String) : Bool :=
  startsWithL "https://".toList s.toList || startsWithL "http://".toList s.toList

/-- The observable outcome of a `Get` run: the returned error (none on
success), the output file's final content, and the ordered event log. -/
structure Outcome where
  error : Option String
  file : List Char
  events : List Event
deriving DecidableEq, Repr

/-- Modelled from the spec (§4.3): the Orchestrator `Client.Get`, absent from
the sources at hand. START: parse the retry budget. Resolve the link. PROBING:
issue the header-only probe against the resolved link; a malformed link is the
`failed to construct HEAD request` error, a transport failure the
`failed to make HEAD request` error wrapping its cause; on success capture the
content length and the fully-resolved URL off the response. PLANNING: consult
the injected Range Planner; failure is `failed to construct range` wrapping
the cause. Then set the bar's total to the captured length, kick it off,
TRANSFERRING: run every planned range against the resolved URL, and on DONE
finish the bar and return success. -/
def get (c : Client) (t : Transport) (link : Except String String)
    (buildRange : Except String (List Range)) : Outcome :=
  match parseRetries c.retries with
  | Except.error msg => ⟨some msg, [], []⟩
  | Except.ok budget =>
    match link with
    | Except.error msg => ⟨some ("could not create download link: " ++ msg), [], []⟩
    | Except.ok contentURL =>
      if validURL contentURL then
        match doCall t ⟨0, [], []⟩ "HEAD" contentURL "" with
        | (Except.error e, st) =>
          ⟨some ("failed to make HEAD request: " ++ e.msg), st.file, st.events⟩
        | (Except.ok resp, st) =>
          match buildRange with
          | Except.error msg =>
            ⟨some ("failed to construct range: " ++ msg), st.file, st.events⟩
          | Except.ok ranges =>
            let st := { st with
              events := st.events ++ [Event.setTotal resp.contentLength, Event.kickoff] }
            match transferAll t resp.requestURL budget ranges st with
            | (st, some msg) => ⟨some msg, st.file, st.events⟩
            | (st, none) => ⟨none, st.file, st.events ++ [Event.finish]⟩
      else ⟨some "failed to construct HEAD request: invalid URL", [], []⟩

/-! Concrete scenario scripts, transcribed from the test suite. -/

/-- The URL every test's link fetcher and probe response resolve to. -/
def theURL : String := "https://example.com/some-file"

/-- Scenario A's probe response: status 200, content length 10, resolved URL. -/
def probeA : Response := ⟨200, 10, theURL, ([], none)⟩

/-- The retry tests' probe response: Go zero status and length, resolved URL. -/
def probeZero : Response := ⟨0, 0, theURL, ([], none)⟩

/-- A partial-content segment response whose body streams fully. -/
def ok206 (s : String) : Response := ⟨206, 0, "", (s.toList, none)⟩

/-- A partial-content segment response that streams a prefix and then faults. -/
def faulty206 (s : String) (e : Err) : Response := ⟨206, 0, "", (s.toList, some e)⟩

/-- The unexpected-EOF sentinel (`io.ErrUnexpectedEOF`). -/
def errUnexpectedEOF : Err := ⟨"unexpected EOF", true, false, false, false⟩

/-- The tests' `ConnectionResetReader` fault: a `net.OpError` wrapping the
platform's `ECONNRESET` condition; the classifier sees the reset condition
through the wrapping. -/
def errConnReset : Err := ⟨"connection reset by peer", false, true, false, false⟩

/-- The tests' `NetError`: an error self-reporting both temporary and
timed-out, of an otherwise unremarkable concrete shape. -/
def netErrTemp : Err := ⟨"whoops", false, false, true, true⟩

/-- A plain error with no retryable property. -/
def errPlain (m : String) : Err := ⟨m, false, false, false, false⟩

/-- Scenario A's plan: ranges 0–9 and 10–19 with their `Range` headers. -/
def rangesTwo : List Range := [⟨0, 9, "bytes=0-9"⟩, ⟨10, 19, "bytes=10-19"⟩]

/-- The retry tests' plan: the single range 0–15, header unset. -/
def rangeSingle : List Range := [⟨0, 15, ""⟩]

/-- The fatal-GET tests' plan: the zero-value range. -/
def rangeZero : List Range := [⟨0, 0, ""⟩]

/-- Scenario A's transport script: probe, then the two segment bodies. -/
def scriptA : Transport :=
  [Except.ok probeA, Except.ok (ok206 "fake produ"), Except.ok (ok206 "ct content")]

/-- The unexpected-EOF script: probe; a first attempt streaming `some` then
the EOF sentinel; a second attempt streaming `something` fully. -/
def scriptEOF : Transport :=
  [Except.ok probeZero, Except.ok (faulty206 "some" errUnexpectedEOF),
   Except.ok (ok206 "something")]

/-- The connection-reset script: probe; `some` then a reset-by-peer fault;
then `something` fully. -/
def scriptReset : Transport :=
  [Except.ok probeZero, Except.ok (faulty206 "some" errConnReset),
   Except.ok (ok206 "something")]

/-- The temporary-network-error script: probe; a transport call returning a
temporary/timed-out error; then `something` fully. -/
def scriptTempDo : Transport :=
  [Except.ok probeZero, Except.error netErrTemp, Except.ok (ok206 "something")]

/-- The limited-retries copy-fault script: probe; `some` then a
temporary/timed-out fault mid-copy; then `something` fully. -/
def scriptTempCopy : Transport :=
  [Except.ok probeZero, Except.ok (faulty206 "some" netErrTemp),
   Except.ok (ok206 "something")]

/-- The non-retryable copy-fault script: probe; `some` then a fault with no
retryable property. -/
def scriptUnknownCopy : Transport :=
  [Except.ok probeZero, Except.ok (faulty206 "some" (errPlain "whoops"))]

/-- The failing-GET script: probe, then a plain transport error `failed GET`. -/
def scriptFailedGET : Transport :=
  [Except.ok probeZero, Except.error (errPlain "failed GET")]

/-- The non-206 script: probe, then a status-500 response. -/
def script500 : Transport :=
  [Except.ok probeZero, Except.ok ⟨500, 0, "", ([], none)⟩]

/-- The failing-HEAD script: the probe's transport call errors. -/
def scriptHeadErr : Transport := [Except.error (errPlain "failed request")]

/-- The link fetcher's successful result. -/
def okLink : Except String String := Except.ok theURL

/-- The planner's result for scenario A. -/
def okRangesTwo : Except String (List Range) := Except.ok rangesTwo

/-- The planner's result for the retry scenarios. -/
def okRangeSingle : Except String (List Range) := Except.ok rangeSingle

/-! Claims. -/

/-- C1: Scenario A — with ranges 0–9 and 10–19 whose fetches both succeed on
the first attempt with bodies `fake produ` and `ct content`, `Get` returns no
error, the output file holds `fake product content`, and the event log is
exactly: one HEAD probe, `SetTotal 10` (the probe's content length), one
`Kickoff`, two GET segment requests with `Range` headers `bytes=0-9` and
`bytes=10-19` — all three requests against the resolved URL — and one
`Finish`. -/
theorem scenarioA_full_success :
    get ⟨""⟩ scriptA okLink okRangesTwo =
      ⟨none, "fake product content".toList,
       [Event.req "HEAD" theURL "", Event.setTotal 10, Event.kickoff,
        Event.req "GET" theURL "bytes=0-9", Event.req "GET" theURL "bytes=10-19",
        Event.finish]⟩ := by
  rfl

/-- C2: idempotence under retry — single range 0–15, budget `1`; the first
attempt streams `some` (4 bytes) then faults with the unexpected-EOF sentinel,
the retry streams `something` fully. `Get` succeeds, the final content is
exactly `something` (the overwritten restart leaves no duplication and no
gap), and the sole `Add` event is `Add (-4)` — the correction by exactly the
4 discarded bytes — occurring after the first segment request and before the
retry's request, so the segment's net progress contribution is its streamed
length exactly once. -/
theorem eof_retry_idempotent :
    get ⟨"1"⟩ scriptEOF okLink okRangeSingle =
      ⟨none, "something".toList,
       [Event.req "HEAD" theURL "", Event.setTotal 0, Event.kickoff,
        Event.req "GET" theURL "", Event.add (-4), Event.req "GET" theURL "",
        Event.finish]⟩ := by
  rfl

/-- C3: the retry classification holds of every error exactly when it is the
unexpected-EOF sentinel, a reset-by-peer condition, or self-reports temporary
or timed-out — independent of the error's concrete shape, which the `Err`
record abstracts; and concretely, a segment whose first attempt faults with a
reset-by-peer condition mid-copy, and one whose transport call returns a
temporary/timed-out error, are both retried within the default budget: `Get`
returns no error and the output equals the retried body `something`. -/
theorem retry_classification :
    (∀ e : Err,
      retryable e = (e.isUnexpectedEOF || e.isConnReset || e.temporary || e.timeout)) ∧
    get ⟨""⟩ scriptReset okLink okRangeSingle =
      ⟨none, "something".toList,
       [Event.req "HEAD" theURL "", Event.setTotal 0, Event.kickoff,
        Event.req "GET" theURL "", Event.add (-4), Event.req "GET" theURL "",
        Event.finish]⟩ ∧
    get ⟨""⟩ scriptTempDo okLink okRangeSingle =
      ⟨none, "something".toList,
       [Event.req "HEAD" theURL "", Event.setTotal 0, Event.kickoff,
        Event.req "GET" theURL "", Event.req "GET" theURL "",
        Event.finish]⟩ := by
  exact ⟨fun e => rfl, rfl, rfl⟩

/-- C4: with the retry budget configured as `0`, the unexpected-EOF fault on
the single segment makes `Get` fail with an error whose message contains
`maximum retries reached` (here the full message, with the segment wrapper),
and the transfer does not complete successfully. -/
theorem retries_zero_exhaustion :
    (get ⟨"0"⟩ scriptEOF okLink okRangeSingle).error =
      some "failed during retryable request: maximum retries reached: unexpected EOF" ∧
    containsStr (((get ⟨"0"⟩ scriptEOF okLink okRangeSingle).error).getD "")
      "maximum retries reached" = true := by
  exact ⟨rfl, by decide⟩

/-- C5: a single segment whose first attempt faults after the partial bytes
`some` with an error carrying no retryable property makes `Get` fail with the
`failed to write file during io.Copy` classification (wrapped by the segment
wrapper), and no retry is attempted: the event log ends at the single GET,
with no correction and no second segment request. -/
theorem non_retryable_copy_fault_fatal :
    get ⟨""⟩ scriptUnknownCopy okLink okRangeSingle =
      ⟨some "failed during retryable request: failed to write file during io.Copy: whoops",
       "some".toList,
       [Event.req "HEAD" theURL "", Event.setTotal 0, Event.kickoff,
        Event.req "GET" theURL ""]⟩ ∧
    containsStr (((get ⟨""⟩ scriptUnknownCopy okLink okRangeSingle).error).getD "")
      "failed to write file during io.Copy" = true := by
  exact ⟨rfl, by decide⟩

/-- C6: a retry budget configured as the non-numeric string `foo` makes `Get`
return the `could not convert download retries to number` configuration error,
and the event log is empty — no probe and no segment request is ever issued. -/
theorem bad_retries_config_no_network :
    get ⟨"foo"⟩ scriptA okLink okRangesTwo =
      ⟨some "could not convert download retries to number: foo", [], []⟩ ∧
    containsStr (((get ⟨"foo"⟩ scriptA okLink okRangesTwo).error).getD "")
      "could not convert download retries to number" = true := by
  exact ⟨rfl, by decide⟩

/-- C7: a fatal segment outcome aborts `Get` with the
`failed during retryable request` wrapper around the underlying cause: the
transport error `failed GET` yields exactly
`failed during retryable request: download request failed: failed GET`, and a
non-partial-content status 500 yields exactly
`failed during retryable request: during GET unexpected status code was
returned: 500`. -/
theorem segment_fatal_wrapping :
    (get ⟨""⟩ scriptFailedGET okLink (Except.ok rangeZero)).error =
      some "failed during retryable request: download request failed: failed GET" ∧
    (get ⟨""⟩ script500 okLink (Except.ok rangeZero)).error =
      some "failed during retryable request: during GET unexpected status code was returned: 500" := by
  exact ⟨rfl, rfl⟩

/-- C8: when the link resolver yields the malformed URL `%%%` the probe cannot
be constructed and `Get` fails with the `failed to construct HEAD request`
classification, with no request issued; when construction succeeds but the
probe's transport call returns the error `failed request`, `Get` fails with
exactly `failed to make HEAD request: failed request` — the probe-failure
classification including the underlying cause. -/
theorem probe_failures :
    get ⟨""⟩ scriptHeadErr (Except.ok "%%%") okRangesTwo =
      ⟨some "failed to construct HEAD request: invalid URL", [], []⟩ ∧
    (get ⟨""⟩ scriptHeadErr okLink okRangesTwo).error =
      some "failed to make HEAD request: failed request" := by
  exact ⟨rfl, rfl⟩

/-- C9: when the probe succeeds but the Range Planner fails with the cause
`failed range build`, `Get` fails with exactly
`failed to construct range: failed range build` — the planning-stage prefix
wrapping the planner's cause. -/
theorem range_plan_failure_message :
    (get ⟨""⟩ scriptA okLink (Except.error "failed range build")).error =
      some "failed to construct range: failed range build" := by
  rfl

/-- C10: with budget `1`, a mid-copy fault that self-reports as both temporary
and timed-out is classified retryable like the transport-call fault path: the
segment is restarted from its start after the `Add (-4)` rollback of the 4
partial bytes, and `Get` succeeds with final output exactly `something`. -/
theorem temp_timeout_copy_fault_retried :
    get ⟨"1"⟩ scriptTempCopy okLink okRangeSingle =
      ⟨none, "something".toList,
       [Event.req "HEAD" theURL "", Event.setTotal 0, Event.kickoff,
        Event.req "GET" theURL "", Event.add (-4), Event.req "GET" theURL "",
        Event.finish]⟩ := by
  rfl

end Download
